import Mathlib

/-!
Verification of the rvnsqlite typed access layer (reven::sqlite).

Shallow embedding conventions:
* unsigned machine integers are `Nat` with explicit `% 2 ^ w` wraparound;
* signed machine integers are `Int`, with explicit two's-complement cast
  functions modelling `static_cast` between the widths involved;
* operations that throw C++ exceptions return `Except SqError _`;
* the underlying sqlite3 engine is an external collaborator: its result
  codes appear as explicit inputs, its binding primitives are recorded as
  an explicit trace of `EngineCall`s, and its exact value storage for the
  types appearing in the claims (INTEGER stores the bound int64 exactly,
  TEXT stores the bound bytes exactly) follows the engine contract.
-/

namespace RvnSqlite

/-- std::numeric_limits<std::int64_t>::max(). -/
def int64_max : Nat := 2 ^ 63 - 1

/-- std::numeric_limits<int>::max() (32-bit int). -/
def int32_max : Nat := 2 ^ 31 - 1

/-- sqlite.cpp line 70: `std::uint64_t{1} + std::numeric_limits<std::int64_t>::max()`. -/
def signed_to_unsigned_offset : Nat := 1 + int64_max

/-- Two's-complement reinterpretation of an unsigned 64-bit value as a signed
64-bit value (`static_cast<std::int64_t>` of a `std::uint64_t`, with the
two's-complement behaviour the source's static_assert demands): values
below 2^63 map to themselves, values from 2^63 up map to value - 2^64. -/
def int64_of_uint64 (value : Nat) : Int :=
  ((value + 2 ^ 63) % 2 ^ 64 : Nat) - 2 ^ 63

/-- `static_cast<std::uint64_t>` of a signed 64-bit value. -/
def uint64_of_int64 (value : Int) : Nat := (value % (2 ^ 64 : Int)).toNat

/-- `static_cast<int>` (32-bit) of an unsigned 32-bit value, two's
complement: values below 2^31 map to themselves, values from 2^31 up map
to value - 2^32. -/
def int32_of_uint32 (value : Nat) : Int :=
  ((value + 2 ^ 31) % 2 ^ 32 : Nat) - 2 ^ 31

/-- `static_cast<std::uint32_t>` of a signed value (reduction mod 2^32). -/
def uint32_of_int (value : Int) : Nat := (value % (2 ^ 32 : Int)).toNat

/-- Truncation of a signed 64-bit value to a 32-bit int
(the cast performed by the engine's column_int accessor). -/
def int32_of_int64 (value : Int) : Int :=
  int32_of_uint32 (uint32_of_int value)

/-- sqlite.cpp lines 72-77: `return value - signed_to_unsigned_offset;`
where the subtraction is wraparound uint64 arithmetic and the result is
converted to int64 by two's complement. -/
def unsigned_to_signed_int64 (value : Nat) : Int :=
  int64_of_uint64 ((value + (2 ^ 64 - signed_to_unsigned_offset)) % 2 ^ 64)

/-- sqlite.cpp lines 79-82:
`return static_cast<uint64_t>(value) + signed_to_unsigned_offset;`
where the addition is wraparound uint64 arithmetic. -/
def signed_to_unsigned_int64 (value : Int) : Nat :=
  (uint64_of_int64 value + signed_to_unsigned_offset) % 2 ^ 64

/-- Exceptions of the module (sqlite.h): DatabaseError and its subtypes,
plus std::logic_error for fatal contract violations. -/
inductive SqError
  | databaseError (msg : String)
  | databaseNotFound (msg : String)
  | databaseBusy (msg : String)
  | outOfBoundsError (msg : String)
  | logicError (msg : String)
deriving DecidableEq

/-- A human-readable error string for an engine result code
(the engine primitive sqlite3_errstr; content is diagnostic only). -/
def sqlite3_errstr (rc : Nat) : String := "engine error code " ++ toString rc

/-- A call made to one of the engine's binding primitives
(sqlite3_bind_int64 / sqlite3_bind_int); recorded as an explicit trace so
that theorems can speak about which engine calls an operation performed. -/
inductive EngineCall
  | bind_int64 (index : Int) (value : Int)
  | bind_int (index : Int) (value : Int)
deriving DecidableEq

/-- The engine-side state of a prepared statement that binding calls can
affect: its bound-parameter set and its cursor position. -/
structure EngineState where
  bindings : List (Int × Int)
  cursor : Nat
deriving DecidableEq

/-- Effect of one engine binding call on the statement's engine state:
a bind records the (index, value) pair and never moves the cursor. -/
def apply_call (s : EngineState) : EngineCall → EngineState
  | .bind_int64 index value => { s with bindings := (index, value) :: s.bindings }
  | .bind_int index value => { s with bindings := (index, value) :: s.bindings }

/-- Effect of a trace of engine binding calls, first call first. -/
def apply_calls (s : EngineState) : List EngineCall → EngineState
  | [] => s
  | c :: cs => apply_calls (apply_call s c) cs

/-- A value stored in a column of a row, as the engine keeps it.
Float and Blob never occur on the code paths the claims are about. -/
inductive Value
  | integer (i : Int)
  | text (s : String)
  | null
deriving DecidableEq

namespace Statement

/-- sqlite.cpp lines 122-129 (`bind_arg_cast`, uint64 overload):
cast to int64 and bind; throw DatabaseError if the engine call fails.
`rc` is the result code the engine returns for the bind call. -/
def bind_arg_cast_u64 (rc : Nat) (index : Int) (value : Nat) (name : String) :
    Except SqError Unit × List EngineCall :=
  ((if rc ≠ 0 then .error (.databaseError ("Can't bind " ++ name ++ ": " ++ sqlite3_errstr rc))
    else .ok ()),
   [EngineCall.bind_int64 index (int64_of_uint64 value)])

/-- sqlite.cpp lines 131-141 (`bind_arg_throw`, uint64 overload):
throw OutOfBoundsError if the value exceeds int64 max, before the engine
bind call; otherwise cast and bind as `bind_arg_cast` does. -/
def bind_arg_throw_u64 (rc : Nat) (index : Int) (value : Nat) (name : String) :
    Except SqError Unit × List EngineCall :=
  if value > int64_max then
    (.error (.outOfBoundsError ("Value (" ++ toString value ++ ") in binding is out of bounds")),
     [])
  else
    ((if rc ≠ 0 then .error (.databaseError ("Can't bind " ++ name ++ ": " ++ sqlite3_errstr rc))
      else .ok ()),
     [EngineCall.bind_int64 index (int64_of_uint64 value)])

/-- sqlite.cpp lines 143-152 (`bind_arg_slide`):
bind `unsigned_to_signed_int64 value`. -/
def bind_arg_slide (rc : Nat) (index : Int) (value : Nat) (name : String) :
    Except SqError Unit × List EngineCall :=
  ((if rc ≠ 0 then .error (.databaseError ("Can't bind " ++ name ++ ": " ++ sqlite3_errstr rc))
    else .ok ()),
   [EngineCall.bind_int64 index (unsigned_to_signed_int64 value)])

/-- sqlite.cpp lines 174-181 (`bind_arg_cast`, uint32 overload):
cast to 32-bit int and bind via sqlite3_bind_int. -/
def bind_arg_cast_u32 (rc : Nat) (index : Int) (value : Nat) (name : String) :
    Except SqError Unit × List EngineCall :=
  ((if rc ≠ 0 then .error (.databaseError ("Can't bind " ++ name ++ ": " ++ sqlite3_errstr rc))
    else .ok ()),
   [EngineCall.bind_int index (int32_of_uint32 value)])

/-- sqlite.cpp lines 183-193 (`bind_arg_throw`, uint32 overload):
throw OutOfBoundsError if the value exceeds int max, before the engine
bind call; otherwise cast to int and bind via sqlite3_bind_int64. -/
def bind_arg_throw_u32 (rc : Nat) (index : Int) (value : Nat) (name : String) :
    Except SqError Unit × List EngineCall :=
  if value > int32_max then
    (.error (.outOfBoundsError ("Value (" ++ toString value ++ ") in binding is out of bounds")),
     [])
  else
    ((if rc ≠ 0 then .error (.databaseError ("Can't bind " ++ name ++ ": " ++ sqlite3_errstr rc))
      else .ok ()),
     [EngineCall.bind_int64 index (int32_of_uint32 value)])

/-- sqlite.cpp lines 338-341 (`column_i64`): the engine returns the stored
integer value; text/null conversions never occur on the claims' paths. -/
def column_i64_val : Value → Int
  | .integer i => i
  | .text _ => 0
  | .null => 0

/-- sqlite.cpp lines 343-346 (`column_u64`):
`static_cast<std::uint64_t>(sqlite3_column_int64(...))`. -/
def column_u64_val (v : Value) : Nat := uint64_of_int64 (column_i64_val v)

/-- sqlite.cpp lines 348-350 (`column_u64_slide`):
`signed_to_unsigned_int64(sqlite3_column_int64(...))`. -/
def column_u64_slide_val (v : Value) : Nat := signed_to_unsigned_int64 (column_i64_val v)

/-- sqlite.cpp lines 352-355 (`column_i32`): the engine's column_int
truncates the stored integer to a 32-bit int. -/
def column_i32_val (v : Value) : Int := int32_of_int64 (column_i64_val v)

/-- sqlite.cpp lines 357-360 (`column_u32`):
`static_cast<std::uint32_t>(sqlite3_column_int(...))`. -/
def column_u32_val (v : Value) : Nat := uint32_of_int (column_i32_val v)

/-- sqlite.cpp lines 362-365 (`column_text`): the engine returns the stored
text bytes; conversions of non-text values never occur on the claims' paths. -/
def column_text_val : Value → String
  | .integer i => toString i
  | .text s => s
  | .null => ""

/-- sqlite.h lines 128-131: result of a call to step(). -/
inductive StepResult
  | Done
  | Row
deriving DecidableEq

/-- sqlite.cpp lines 372-387 (`step`): map the engine's result code
(SQLITE_ROW = 100, SQLITE_DONE = 101, SQLITE_BUSY = 5, SQLITE_MISUSE = 21)
to a StepResult, or throw the corresponding exception. -/
def step (rc : Nat) : Except SqError StepResult :=
  if rc = 100 then .ok .Row
  else if rc = 101 then .ok .Done
  else if rc = 5 then .error (.databaseBusy ("Database busy: " ++ sqlite3_errstr rc))
  else if rc = 21 then .error (.logicError ("Statement misuse: " ++ sqlite3_errstr rc))
  else .error (.databaseError ("Database error: " ++ sqlite3_errstr rc))

/-- sqlite.cpp lines 389-392 (`reset`): the source calls sqlite3_reset and
discards the result code the engine returns, so the caller is never told
about a non-success result. -/
def reset (_rc : Nat) : Except SqError Unit := .ok ()

/-- sqlite.cpp lines 394-397 (`clear_bindings`): the source calls
sqlite3_clear_bindings and discards the result code the engine returns. -/
def clear_bindings (_rc : Nat) : Except SqError Unit := .ok ()

end Statement

namespace Database

/-- sqlite.cpp lines 98-104 (`exec`): throw DatabaseError carrying the given
error message and the engine's error string when the engine reports a
non-success result for the command. -/
def exec (rc : Nat) (error_message : String) : Except SqError Unit :=
  if rc ≠ 0 then .error (.databaseError (error_message ++ " " ++ sqlite3_errstr rc))
  else .ok ()

end Database

/-- resource_database.h line 14: the current metadata schema version. -/
def metadata_version : Nat := 1

/-- resource_database.h lines 44-74: the raw metadata envelope. -/
structure Metadata where
  type_ : Nat
  format_version_ : String
  tool_name_ : String
  tool_version_ : String
  tool_info_ : String
  generation_date_ : Nat
deriving DecidableEq

/-- Metadata exceptions (resource_database.h lines 19-38). -/
inductive MetaError
  | readMetadataError (msg : String)
  | writeMetadataError (msg : String)
deriving DecidableEq

/-- Column access on a row fetched by `select * from _metadata`
(the engine yields Null for a column index past the row's width). -/
def getCol (row : List Value) (column : Nat) : Value := row.getD column .null

namespace ResourceDatabase

/-- The row written into _metadata by create_metadata and update_metadata
(resource_database.cpp lines 9-20 together with 23-48 / 50-65):
parameter 1 is the current metadata_version (bind_arg_cast, uint32),
parameter 2 the type (bind_arg_cast, uint32), parameters 3-6 the four
strings (bind_text_without_copy), parameter 7 the generation date
(bind_arg_cast, uint64). -/
def write_metadata_row (metadata : Metadata) : List Value :=
  [ .integer (int32_of_uint32 metadata_version)
  , .integer (int32_of_uint32 metadata.type_)
  , .text metadata.format_version_
  , .text metadata.tool_name_
  , .text metadata.tool_version_
  , .text metadata.tool_info_
  , .integer (int64_of_uint64 metadata.generation_date_) ]

/-- resource_database.h lines 179-182. -/
structure VersionedMetadata where
  version : Nat
  metadata : Metadata
deriving DecidableEq

/-- resource_database.cpp lines 90-109: the tail of `read_metadata` once
the metadata version `v` and the next column counter `c` are known: read
the remaining columns with the source's column_counter bookkeeping
(tool_version is read from column c+3 only for versions >= 1 and
synthesized as "1.0.0-prerelease" otherwise), then check by a second step
that no second row exists. -/
def read_metadata_tail (row : List Value) (rest : List (List Value)) (v c : Nat) :
    Except MetaError VersionedMetadata :=
  let type_v := Statement.column_u32_val (getCol row c)
  let format_version_v := Statement.column_text_val (getCol row (c + 1))
  let tool_name_v := Statement.column_text_val (getCol row (c + 2))
  let tool_version_c : String × Nat :=
    if v ≥ 1 then (Statement.column_text_val (getCol row (c + 3)), c + 4)
    else ("1.0.0-prerelease", c + 3)
  let tool_info_v := Statement.column_text_val (getCol row tool_version_c.2)
  let generation_date_v := Statement.column_u64_val (getCol row (tool_version_c.2 + 1))
  if rest ≠ [] then
    .error (.readMetadataError "Ill-formed metadata: multiple metadata entries")
  else
    .ok ⟨v, ⟨type_v, format_version_v, tool_name_v, tool_version_c.1,
             tool_info_v, generation_date_v⟩⟩

/-- resource_database.cpp lines 67-113 (`read_metadata`), for a database
whose _metadata table exists and holds `rows` (each row the column list
`select *` yields). `has_metadata_version_column` is the result of the
sqlite3_table_column_metadata schema probe for the metadata_version
column. The first step must yield a row; when the version column is
present the stored version is read from column 0 (rejecting versions
above the current one) and the remaining columns start at 1, otherwise
the row is treated as version 0 and the columns start at 0. -/
def read_metadata (has_metadata_version_column : Bool) (rows : List (List Value)) :
    Except MetaError VersionedMetadata :=
  match rows with
  | [] => .error (.readMetadataError "Ill-formed metadata: no metadata entry")
  | row :: rest =>
    if has_metadata_version_column then
      let v := Statement.column_u32_val (getCol row 0)
      if v > metadata_version then
        .error (.readMetadataError "Metadata version in the future")
      else
        read_metadata_tail row rest v 1
    else
      read_metadata_tail row rest 0 0

/-- A ResourceDatabase's state: the cached envelope `md_`, the cached
on-disk schema version `md_version_` (resource_database.h lines 166-169)
and the rows of the on-disk _metadata table. -/
structure State where
  md_ : Metadata
  md_version_ : Nat
  metadata_rows : List (List Value)
deriving DecidableEq

/-- resource_database.h lines 233-241 (`set_metadata`): refuse with
WriteMetadataError when the cached schema version differs from the current
metadata_version constant; otherwise run update_metadata (which rewrites
every row of _metadata to the new values, resource_database.cpp lines
50-65) and update the cached envelope. Returns the call's result together
with the database state after the call. -/
def set_metadata (db : State) (metadata : Metadata) : Except MetaError Unit × State :=
  if db.md_version_ ≠ metadata_version then
    (.error (.writeMetadataError
      "Can't set the metadata with different metadata version than the current"), db)
  else
    (.ok (),
     { db with md_ := metadata,
               metadata_rows := db.metadata_rows.map (fun _ => write_metadata_row metadata) })

end ResourceDatabase

/-- query.h lines 11-56: a Query exclusively owns its statement, modelled
by the list of rows the statement has not yet produced (`fetch_stmt_ = none`
is the released statement / finished state), plus the decoder f_ and at
most one decoded value current_. -/
structure Query (T R : Type) where
  current_ : Option T
  fetch_stmt_ : Option (List R)
  f_ : R → T

/-- query.h lines 71-81 (constructor): step the moved-in statement once;
on Row decode the row into current_, on Done release the statement
immediately (current_ stays empty). -/
def Query.init (stmt : List R) (f : R → T) : Query T R :=
  match stmt with
  | r :: rest => { current_ := some (f r), fetch_stmt_ := some rest, f_ := f }
  | [] => { current_ := none, fetch_stmt_ := none, f_ := f }

/-- query.h lines 48-50: the query is finished when the statement has been
released. -/
def Query.finished (q : Query T R) : Bool := q.fetch_stmt_.isNone

/-- query.h lines 58-69 (Iterator::operator++): step the owned statement;
on Row decode the next row into current_; on Done release the statement —
the source leaves current_ untouched in that branch. Advancing a finished
query dereferences an empty optional in the source (undefined behaviour);
it is modelled as a no-op and every theorem below only advances unfinished
queries. -/
def Query.increment (q : Query T R) : Query T R :=
  match q.fetch_stmt_ with
  | some (r :: rest) => { q with current_ := some (q.f_ r), fetch_stmt_ := some rest }
  | some [] => { q with fetch_stmt_ := none }
  | none => q

/-- query.h lines 25-47: an iterator is a possibly-null pointer to its
query; begin() returns end() when the query is finished, and operator==
compares the pointers. -/
def Query.beginIterator (q : Query T R) : Option Unit :=
  if q.finished then none else some ()

/-- The end() iterator: the null pointer. -/
def Query.endIterator : Option Unit := none

/-- The consumer loop over a query
(`for (it = q.begin(); it != q.end(); ++it) use(*it);`):
collect the current value and advance, until finished; `fuel` bounds the
number of iterations. Returns the collected values in order together with
the query's final state. -/
def Query.run (fuel : Nat) (q : Query T R) : List T × Query T R :=
  match fuel with
  | 0 => ([], q)
  | fuel + 1 =>
    if q.finished then ([], q)
    else
      match q.current_ with
      | some t =>
        let p := Query.run fuel q.increment
        (t :: p.1, p.2)
      | none => ([], q)

/-- The query states reachable by legal use of a query built over the
given statement: the freshly constructed query, and any advance of a
reachable query that is not yet finished. -/
inductive Query.Reachable (stmt : List R) (f : R → T) : Query T R → Prop
  | start : Query.Reachable stmt f (Query.init stmt f)
  | step {q : Query T R} : Query.Reachable stmt f q → q.finished = false →
      Query.Reachable stmt f q.increment

/-- On the uint64 range, the slide encoding is exactly subtraction of 2^63
over the integers. -/
theorem unsigned_to_signed_int64_eq (value : Nat) (h : value < 2 ^ 64) :
    unsigned_to_signed_int64 value = (value : Int) - 2 ^ 63 := by
  unfold unsigned_to_signed_int64 int64_of_uint64 signed_to_unsigned_offset int64_max
  norm_num
  omega

/-- Decoding with the slide inverse undoes the slide encoding. -/
theorem signed_to_unsigned_of_unsigned_to_signed (value : Nat) (h : value < 2 ^ 64) :
    signed_to_unsigned_int64 (unsigned_to_signed_int64 value) = value := by
  rw [unsigned_to_signed_int64_eq value h]
  unfold signed_to_unsigned_int64 uint64_of_int64 signed_to_unsigned_offset int64_max
  norm_num
  omega

/-- Reinterpreting a uint64 as int64 and back is the identity on the
uint64 range. -/
theorem uint64_of_int64_of_uint64 (value : Nat) (h : value < 2 ^ 64) :
    uint64_of_int64 (int64_of_uint64 value) = value := by
  unfold uint64_of_int64 int64_of_uint64
  norm_num
  omega

/-- The engine hands the stored integer back to column_i64
(evaluation rule of the embedding). -/
theorem column_i64_val_integer (i : Int) :
    Statement.column_i64_val (Value.integer i) = i := rfl

/-- Reading back a uint32 stored through the 32-bit cast binding recovers
it on the uint32 range. -/
theorem column_u32_val_of_cast (value : Nat) (h : value < 2 ^ 32) :
    Statement.column_u32_val (Value.integer (int32_of_uint32 value)) = value := by
  unfold Statement.column_u32_val Statement.column_i32_val
  rw [column_i64_val_integer]
  unfold int32_of_int64 int32_of_uint32 uint32_of_int
  norm_num
  omega

/-- Reading back a uint64 stored through the 64-bit cast binding recovers
it on the uint64 range. -/
theorem column_u64_val_of_cast (value : Nat) (h : value < 2 ^ 64) :
    Statement.column_u64_val (Value.integer (int64_of_uint64 value)) = value := by
  unfold Statement.column_u64_val
  rw [column_i64_val_integer]
  exact uint64_of_int64_of_uint64 value h

/-- C1: for every unsigned 64-bit value v (including 0 and 2^64 - 1),
reading back with the slide inverse a value stored with the slide encoding
returns v: bind_arg_slide binds unsigned_to_signed_int64 v, column_u64_slide
applied to that stored signed value returns v, and in particular
signed_to_unsigned_int64 (unsigned_to_signed_int64 v) = v. -/
theorem slide_roundtrip (index : Int) (name : String) (value : Nat) (h : value < 2 ^ 64) :
    Statement.bind_arg_slide 0 index value name =
      (.ok (), [EngineCall.bind_int64 index (unsigned_to_signed_int64 value)]) ∧
    Statement.column_u64_slide_val (Value.integer (unsigned_to_signed_int64 value)) = value ∧
    signed_to_unsigned_int64 (unsigned_to_signed_int64 value) = value := by
  refine ⟨by simp [Statement.bind_arg_slide], ?_, signed_to_unsigned_of_unsigned_to_signed value h⟩
  unfold Statement.column_u64_slide_val
  rw [column_i64_val_integer]
  exact signed_to_unsigned_of_unsigned_to_signed value h

/-- Witness for C1 at the extreme inputs 0 and 2^64 - 1. -/
theorem slide_roundtrip_witness :
    signed_to_unsigned_int64 (unsigned_to_signed_int64 18446744073709551615) =
      18446744073709551615 ∧
    Statement.column_u64_slide_val
      (Value.integer (unsigned_to_signed_int64 18446744073709551615)) =
      18446744073709551615 ∧
    signed_to_unsigned_int64 (unsigned_to_signed_int64 0) = 0 :=
  ⟨(slide_roundtrip 1 "value" 18446744073709551615 (by decide)).2.2,
   (slide_roundtrip 1 "value" 18446744073709551615 (by decide)).2.1,
   (slide_roundtrip 1 "value" 0 (by decide)).2.2⟩

/-- C2: the slide encoding is strictly monotone across the signed/unsigned
boundary: a < b under unsigned 64-bit comparison implies
unsigned_to_signed_int64 a < unsigned_to_signed_int64 b under signed
comparison. -/
theorem slide_monotone (a b : Nat) (hb : b < 2 ^ 64) (hab : a < b) :
    unsigned_to_signed_int64 a < unsigned_to_signed_int64 b := by
  rw [unsigned_to_signed_int64_eq a (lt_trans hab hb), unsigned_to_signed_int64_eq b hb]
  omega

/-- Witness for C2 across the signed/unsigned boundary:
2^63 - 1 < 2^63 unsigned maps to -1 < 0 signed... stated at the boundary pair. -/
theorem slide_monotone_witness :
    unsigned_to_signed_int64 9223372036854775807 < unsigned_to_signed_int64 9223372036854775808 :=
  slide_monotone 9223372036854775807 9223372036854775808 (by decide) (by decide)

/-- C3: the throw binding policy for uint64: a value within int64 range is
bound (as its exact signed cast) without error and column_u64 recovers it;
a value above int64 range makes bind_arg_throw throw OutOfBoundsError,
whatever the engine would have answered. -/
theorem bind_arg_throw_u64_spec (index : Int) (name : String) (value : Nat)
    (h : value < 2 ^ 64) :
    (value ≤ int64_max →
      Statement.bind_arg_throw_u64 0 index value name =
        (.ok (), [EngineCall.bind_int64 index (int64_of_uint64 value)]) ∧
      Statement.column_u64_val (Value.integer (int64_of_uint64 value)) = value) ∧
    (value > int64_max → ∀ rc,
      Statement.bind_arg_throw_u64 rc index value name =
        (.error (.outOfBoundsError
          ("Value (" ++ toString value ++ ") in binding is out of bounds")), [])) := by
  constructor
  · intro hle
    refine ⟨?_, column_u64_val_of_cast value h⟩
    unfold Statement.bind_arg_throw_u64
    rw [if_neg (by omega)]
    simp
  · intro hgt rc
    unfold Statement.bind_arg_throw_u64
    rw [if_pos hgt]

/-- Witness for C3: value 5 binds and reads back as 5; value 2^63 throws
OutOfBoundsError. -/
theorem bind_arg_throw_u64_spec_witness :
    (Statement.bind_arg_throw_u64 0 1 5 "value" =
      (.ok (), [EngineCall.bind_int64 1 (int64_of_uint64 5)]) ∧
     Statement.column_u64_val (Value.integer (int64_of_uint64 5)) = 5) ∧
    Statement.bind_arg_throw_u64 0 1 9223372036854775808 "value" =
      (.error (.outOfBoundsError
        ("Value (" ++ toString (9223372036854775808 : Nat) ++ ") in binding is out of bounds")),
       []) :=
  ⟨(bind_arg_throw_u64_spec 1 "value" 5 (by decide)).1 (by decide),
   (bind_arg_throw_u64_spec 1 "value" 9223372036854775808 (by decide)).2 (by decide) 0⟩

/-- C10: the throw binding policy is atomic: for any engine state, any
index, and any out-of-range value (uint64 above int64 max, or uint32 above
int32 max for the 32-bit overload), bind_arg_throw throws OutOfBoundsError
having made no engine binding call, so the statement's bindings and cursor
position are unchanged. -/
theorem bind_arg_throw_atomic (s : EngineState) (rc : Nat) (index : Int) (name : String)
    (value : Nat) :
    (value > int64_max →
      (Statement.bind_arg_throw_u64 rc index value name).1 =
        .error (.outOfBoundsError
          ("Value (" ++ toString value ++ ") in binding is out of bounds")) ∧
      (Statement.bind_arg_throw_u64 rc index value name).2 = [] ∧
      apply_calls s (Statement.bind_arg_throw_u64 rc index value name).2 = s) ∧
    (value > int32_max →
      (Statement.bind_arg_throw_u32 rc index value name).1 =
        .error (.outOfBoundsError
          ("Value (" ++ toString value ++ ") in binding is out of bounds")) ∧
      (Statement.bind_arg_throw_u32 rc index value name).2 = [] ∧
      apply_calls s (Statement.bind_arg_throw_u32 rc index value name).2 = s) := by
  constructor
  · intro h
    unfold Statement.bind_arg_throw_u64
    rw [if_pos h]
    exact ⟨rfl, rfl, rfl⟩
  · intro h
    unfold Statement.bind_arg_throw_u32
    rw [if_pos h]
    exact ⟨rfl, rfl, rfl⟩

/-- Witness for C10 at a statement with one existing binding, cursor at 2,
engine code 7, and the out-of-range value 2^63 (out of range for both
overloads). -/
theorem bind_arg_throw_atomic_witness :
    ((Statement.bind_arg_throw_u64 7 1 9223372036854775808 "value").1 =
        .error (.outOfBoundsError
          ("Value (" ++ toString (9223372036854775808 : Nat) ++ ") in binding is out of bounds")) ∧
      (Statement.bind_arg_throw_u64 7 1 9223372036854775808 "value").2 = [] ∧
      apply_calls ⟨[(1, 5)], 2⟩ (Statement.bind_arg_throw_u64 7 1 9223372036854775808 "value").2 =
        ⟨[(1, 5)], 2⟩) ∧
    ((Statement.bind_arg_throw_u32 7 1 9223372036854775808 "value").1 =
        .error (.outOfBoundsError
          ("Value (" ++ toString (9223372036854775808 : Nat) ++ ") in binding is out of bounds")) ∧
      (Statement.bind_arg_throw_u32 7 1 9223372036854775808 "value").2 = [] ∧
      apply_calls ⟨[(1, 5)], 2⟩ (Statement.bind_arg_throw_u32 7 1 9223372036854775808 "value").2 =
        ⟨[(1, 5)], 2⟩) :=
  ⟨(bind_arg_throw_atomic ⟨[(1, 5)], 2⟩ 7 1 "value" 9223372036854775808).1 (by decide),
   (bind_arg_throw_atomic ⟨[(1, 5)], 2⟩ 7 1 "value" 9223372036854775808).2 (by decide)⟩

/-- C9 counterexample: the engine reporting the non-success result code 1
from sqlite3_reset (and sqlite3_clear_bindings) is not signalled to the
caller: Statement::reset and Statement::clear_bindings return normally, so
the claim that every operation signals engine non-success results is false
on the code. -/
theorem reset_swallows_error_cx :
    Statement.reset 1 = Except.ok () ∧ Statement.clear_bindings 1 = Except.ok () ∧
    (1 : Nat) ≠ 0 :=
  ⟨rfl, rfl, by decide⟩

/-- C9 (amended): engine non-success results are signalled by exec, by the
binding wrappers and by step, but Statement::reset and
Statement::clear_bindings discard the engine's result code and never
signal an error. -/
theorem engine_error_propagation (rc : Nat) (index : Int) (value : Nat) (name msg : String)
    (h0 : rc ≠ 0) (h100 : rc ≠ 100) (h101 : rc ≠ 101) (hv : value ≤ int64_max) :
    Database.exec rc msg = .error (.databaseError (msg ++ " " ++ sqlite3_errstr rc)) ∧
    (Statement.bind_arg_throw_u64 rc index value name).1 =
      .error (.databaseError ("Can't bind " ++ name ++ ": " ++ sqlite3_errstr rc)) ∧
    (Statement.bind_arg_slide rc index value name).1 =
      .error (.databaseError ("Can't bind " ++ name ++ ": " ++ sqlite3_errstr rc)) ∧
    (Statement.bind_arg_cast_u64 rc index value name).1 =
      .error (.databaseError ("Can't bind " ++ name ++ ": " ++ sqlite3_errstr rc)) ∧
    (∃ e, Statement.step rc = .error e) ∧
    Statement.reset rc = .ok () ∧
    Statement.clear_bindings rc = .ok () := by
  refine ⟨?_, ?_, ?_, ?_, ?_, rfl, rfl⟩
  · unfold Database.exec
    rw [if_pos h0]
  · unfold Statement.bind_arg_throw_u64
    rw [if_neg (not_lt.mpr hv)]
    simp [h0]
  · unfold Statement.bind_arg_slide
    simp [h0]
  · unfold Statement.bind_arg_cast_u64
    simp [h0]
  · unfold Statement.step
    rw [if_neg h100, if_neg h101]
    by_cases h5 : rc = 5
    · subst h5
      simp
    · rw [if_neg h5]
      by_cases h21 : rc = 21
      · subst h21
        simp
      · rw [if_neg h21]
        exact ⟨_, rfl⟩

/-- Witness for the amended C9 at engine result code 1. -/
theorem engine_error_propagation_witness :
    Database.exec 1 "msg" = .error (.databaseError ("msg" ++ " " ++ sqlite3_errstr 1)) ∧
    (Statement.bind_arg_throw_u64 1 1 5 "name").1 =
      .error (.databaseError ("Can't bind " ++ "name" ++ ": " ++ sqlite3_errstr 1)) ∧
    (Statement.bind_arg_slide 1 1 5 "name").1 =
      .error (.databaseError ("Can't bind " ++ "name" ++ ": " ++ sqlite3_errstr 1)) ∧
    (Statement.bind_arg_cast_u64 1 1 5 "name").1 =
      .error (.databaseError ("Can't bind " ++ "name" ++ ": " ++ sqlite3_errstr 1)) ∧
    (∃ e, Statement.step 1 = .error e) ∧
    Statement.reset 1 = .ok () ∧
    Statement.clear_bindings 1 = .ok () :=
  engine_error_propagation 1 1 5 "name" "msg" (by decide) (by decide) (by decide)
    (by norm_num [int64_max])

/-- C7: set_metadata on a database whose cached on-disk schema version
differs from the current metadata_version constant throws
WriteMetadataError and leaves both the cached envelope and the database
contents exactly as they were. -/
theorem set_metadata_version_guard (db : ResourceDatabase.State) (metadata : Metadata)
    (h : db.md_version_ ≠ metadata_version) :
    ResourceDatabase.set_metadata db metadata =
      (.error (.writeMetadataError
        "Can't set the metadata with different metadata version than the current"), db) := by
  unfold ResourceDatabase.set_metadata
  rw [if_pos h]

/-- Witness for C7: a database opened at legacy schema version 0 rejects
set_metadata and is left unchanged. -/
theorem set_metadata_version_guard_witness :
    ResourceDatabase.set_metadata ⟨⟨7, "fv", "tn", "tv", "ti", 9⟩, 0, [[Value.null]]⟩
        ⟨1, "a", "b", "c", "d", 2⟩ =
      (.error (.writeMetadataError
        "Can't set the metadata with different metadata version than the current"),
       ⟨⟨7, "fv", "tn", "tv", "ti", 9⟩, 0, [[Value.null]]⟩) :=
  set_metadata_version_guard ⟨⟨7, "fv", "tn", "tv", "ti", 9⟩, 0, [[Value.null]]⟩
    ⟨1, "a", "b", "c", "d", 2⟩ (by decide)

/-- Column access on a nonempty row at index 0. -/
theorem getCol_zero (a : Value) (l : List Value) : getCol (a :: l) 0 = a := rfl

/-- Column access on a nonempty row at a positive index. -/
theorem getCol_succ (a : Value) (l : List Value) (n : Nat) :
    getCol (a :: l) (n + 1) = getCol l n := rfl

/-- C4: writing any metadata envelope with create_metadata (update_metadata
writes the identical row) and reading it back with read_metadata yields the
original envelope field for field, at the current schema version. -/
theorem metadata_roundtrip (md : Metadata) (ht : md.type_ < 2 ^ 32)
    (hg : md.generation_date_ < 2 ^ 64) :
    ResourceDatabase.read_metadata true [ResourceDatabase.write_metadata_row md] =
      .ok ⟨metadata_version, md⟩ := by
  obtain ⟨iv, hiv⟩ : ∃ x, int32_of_uint32 metadata_version = x := ⟨_, rfl⟩
  obtain ⟨it, hit⟩ : ∃ x, int32_of_uint32 md.type_ = x := ⟨_, rfl⟩
  obtain ⟨ig, hig⟩ : ∃ x, int64_of_uint64 md.generation_date_ = x := ⟨_, rfl⟩
  have h0 : Statement.column_u32_val (Value.integer iv) = metadata_version :=
    hiv ▸ column_u32_val_of_cast metadata_version (by norm_num [metadata_version])
  have h1 : Statement.column_u32_val (Value.integer it) = md.type_ :=
    hit ▸ column_u32_val_of_cast md.type_ ht
  have h2 : Statement.column_u64_val (Value.integer ig) = md.generation_date_ :=
    hig ▸ column_u64_val_of_cast md.generation_date_ hg
  unfold ResourceDatabase.read_metadata
  unfold ResourceDatabase.write_metadata_row
  rw [hiv, hit, hig]
  simp only [getCol_zero, getCol_succ, h0, h1, h2, metadata_version, Nat.reduceAdd, reduceIte]
  unfold ResourceDatabase.read_metadata_tail
  simp only [getCol_zero, getCol_succ, h1, h2, Statement.column_text_val, Nat.reduceAdd,
    reduceIte]
  norm_num [getCol_zero, getCol_succ, Statement.column_text_val, h2]

/-- Witness for C4 at the test suite's dummy envelope. -/
theorem metadata_roundtrip_witness :
    ResourceDatabase.read_metadata true
      [ResourceDatabase.write_metadata_row
        ⟨42, "1.0.0-dummy", "TestMetaDataWriter", "1.0.0", "Tests version 1.0.0", 42424242⟩] =
      .ok ⟨metadata_version,
        ⟨42, "1.0.0-dummy", "TestMetaDataWriter", "1.0.0", "Tests version 1.0.0", 42424242⟩⟩ :=
  metadata_roundtrip
    ⟨42, "1.0.0-dummy", "TestMetaDataWriter", "1.0.0", "Tests version 1.0.0", 42424242⟩
    (by norm_num) (by norm_num)

/-- C6: reading the envelope of a legacy database whose _metadata table has
no metadata_version column succeeds: the five legacy columns are read in
the fixed order type, format_version, tool_name, tool_info,
generation_date, the returned schema version is 0, and tool_version is the
synthesized string "1.0.0-prerelease". -/
theorem legacy_metadata_read (t g : Nat) (fv tn ti : String)
    (ht : t < 2 ^ 32) (hg : g < 2 ^ 64) :
    ResourceDatabase.read_metadata false
      [[Value.integer (int32_of_uint32 t), Value.text fv, Value.text tn, Value.text ti,
        Value.integer (int64_of_uint64 g)]] =
      .ok ⟨0, ⟨t, fv, tn, "1.0.0-prerelease", ti, g⟩⟩ := by
  obtain ⟨it, hit⟩ : ∃ x, int32_of_uint32 t = x := ⟨_, rfl⟩
  obtain ⟨ig, hig⟩ : ∃ x, int64_of_uint64 g = x := ⟨_, rfl⟩
  have h1 : Statement.column_u32_val (Value.integer it) = t := hit ▸ column_u32_val_of_cast t ht
  have h2 : Statement.column_u64_val (Value.integer ig) = g := hig ▸ column_u64_val_of_cast g hg
  rw [hit, hig]
  unfold ResourceDatabase.read_metadata
  simp only [Bool.false_eq_true, if_false, reduceIte]
  unfold ResourceDatabase.read_metadata_tail
  simp only [getCol_zero, getCol_succ, h1, h2, Statement.column_text_val, Nat.reduceAdd,
    reduceIte]
  norm_num [getCol_zero, getCol_succ, Statement.column_text_val, h2]

/-- Witness for C6 at a concrete legacy row. -/
theorem legacy_metadata_read_witness :
    ResourceDatabase.read_metadata false
      [[Value.integer (int32_of_uint32 42), Value.text "1.0.0-dummy",
        Value.text "TestMetaDataWriter", Value.text "Tests version 1.0.0",
        Value.integer (int64_of_uint64 42424242)]] =
      .ok ⟨0, ⟨42, "1.0.0-dummy", "TestMetaDataWriter", "1.0.0-prerelease",
        "Tests version 1.0.0", 42424242⟩⟩ :=
  legacy_metadata_read 42 42424242 "1.0.0-dummy" "TestMetaDataWriter" "Tests version 1.0.0"
    (by norm_num) (by norm_num)

/-- A finished query is left untouched by the consumer loop. -/
theorem Query.run_finished {T R : Type} (fuel : Nat) (q : Query T R) (h : q.finished = true) :
    Query.run fuel q = ([], q) := by
  cases fuel with
  | zero => rfl
  | succ n => simp [Query.run, h]

/-- operator++ on a statement that still has a row: decode it. -/
theorem Query.increment_cons {T R : Type} (f : R → T) (c : Option T) (r : R) (rest : List R) :
    Query.increment ⟨c, some (r :: rest), f⟩ = ⟨some (f r), some rest, f⟩ := rfl

/-- operator++ on a statement with no more rows: release the statement and
leave the current value in place. -/
theorem Query.increment_nil {T R : Type} (f : R → T) (c : Option T) :
    Query.increment ⟨c, some [], f⟩ = ⟨c, none, f⟩ := rfl

/-- Driving a query that holds a decoded value and a live statement yields
that value followed by the decodings of the statement's remaining rows,
and ends finished. -/
theorem Query.run_cons {T R : Type} (f : R → T) (rest : List R) (t : T) (fuel : Nat)
    (h : rest.length < fuel) :
    (Query.run fuel ⟨some t, some rest, f⟩).1 = t :: rest.map f ∧
    (Query.run fuel ⟨some t, some rest, f⟩).2.finished = true := by
  induction rest generalizing t fuel with
  | nil =>
    cases fuel with
    | zero => omega
    | succ n =>
      simp [Query.run, Query.finished, Query.increment_nil,
        Query.run_finished n ⟨some t, none, f⟩ rfl]
  | cons r rest ih =>
    cases fuel with
    | zero => omega
    | succ n =>
      have hn : rest.length < n := by
        simp only [List.length_cons] at h
        omega
      obtain ⟨ih1, ih2⟩ := ih (f r) n hn
      have ih3 : (Query.run n ⟨some (f r), some rest, f⟩).2.fetch_stmt_ = none := by
        simpa [Query.finished] using ih2
      simp [Query.run, Query.finished, Query.increment_cons, ih1, ih2, ih3]

/-- C5: a Query over a statement producing N rows yields exactly the N
decoded values, in the statement's order, and is then finished; a Query
over zero rows is finished immediately after construction and its begin()
iterator equals its end() iterator. -/
theorem query_yields_rows (T R : Type) (rows : List R) (f : R → T) :
    (Query.run (rows.length + 1) (Query.init rows f)).1 = rows.map f ∧
    (Query.run (rows.length + 1) (Query.init rows f)).2.finished = true ∧
    (Query.init ([] : List R) f).finished = true ∧
    Query.beginIterator (Query.init ([] : List R) f) = Query.endIterator := by
  cases rows with
  | nil => exact ⟨rfl, rfl, rfl, rfl⟩
  | cons r rest =>
    obtain ⟨h1, h2⟩ := Query.run_cons f rest (f r) (rest.length + 1 + 1) (by omega)
    refine ⟨?_, ?_, rfl, rfl⟩
    · simp only [Query.init, List.length_cons]
      rw [h1]
      simp
    · simp only [Query.init, List.length_cons]
      rw [h2]

/-- Every reachable query state has a released statement or holds both a
decoded current value and a live statement together with the decoder. -/
theorem Query.reachable_shape {T R : Type} (rows : List R) (f : R → T) (q : Query T R)
    (hq : Query.Reachable rows f q) :
    q.fetch_stmt_ = none ∨ ∃ t l, q = ⟨some t, some l, f⟩ := by
  induction hq with
  | start =>
    cases rows with
    | nil => exact Or.inl rfl
    | cons r rest => exact Or.inr ⟨f r, rest, rfl⟩
  | step hr hnf ih =>
    rcases ih with hnone | ⟨t, l, rfl⟩
    · simp [Query.finished, hnone] at hnf
    · cases l with
      | nil => exact Or.inl rfl
      | cons r rest => exact Or.inr ⟨f r, rest, rfl⟩

/-- C8 counterexample: advancing a one-row query past its last row releases
the statement but does not drop the current value, so the claimed
invariant (current_ populated iff the statement is still held) is false at
that state. -/
theorem query_done_retains_current_cx :
    (Query.init [5] (fun n : Nat => n)).increment.fetch_stmt_ = none ∧
    (Query.init [5] (fun n : Nat => n)).increment.current_ = some 5 ∧
    ¬ (((Query.init [5] (fun n : Nat => n)).increment.current_.isSome = true) ↔
        ((Query.init [5] (fun n : Nat => n)).increment.fetch_stmt_.isSome = true)) :=
  ⟨rfl, rfl, by decide⟩

/-- C8 (amended): at every reachable query state, if the statement is still
held then a current value is populated (the invariant holds in this
direction only), and advancing a state whose next step hits Done releases
the statement while leaving the current value unchanged rather than
dropping it. -/
theorem query_done_retains_current {T R : Type} (rows : List R) (f : R → T) (q : Query T R)
    (hq : Query.Reachable rows f q) :
    (q.finished = true ∨ q.current_.isSome = true) ∧
    (q.finished = true ∨ q.increment.finished = false ∨ q.increment.current_ = q.current_) ∧
    (q.finished = true ∨ q.increment.finished = false ∨ q.increment.fetch_stmt_ = none) := by
  rcases Query.reachable_shape rows f q hq with hnone | ⟨t, l, rfl⟩
  · have hf : q.finished = true := by simp [Query.finished, hnone]
    exact ⟨Or.inl hf, Or.inl hf, Or.inl hf⟩
  · cases l with
    | nil => exact ⟨Or.inr rfl, Or.inr (Or.inr rfl), Or.inr (Or.inr rfl)⟩
    | cons r rest => exact ⟨Or.inr rfl, Or.inr (Or.inl rfl), Or.inr (Or.inl rfl)⟩

/-- Witness for the amended C8 at the freshly constructed one-row query. -/
theorem query_done_retains_current_witness :
    ((Query.init [5] (fun n : Nat => n)).finished = true ∨
      (Query.init [5] (fun n : Nat => n)).current_.isSome = true) ∧
    ((Query.init [5] (fun n : Nat => n)).finished = true ∨
      (Query.init [5] (fun n : Nat => n)).increment.finished = false ∨
      (Query.init [5] (fun n : Nat => n)).increment.current_ =
        (Query.init [5] (fun n : Nat => n)).current_) ∧
    ((Query.init [5] (fun n : Nat => n)).finished = true ∨
      (Query.init [5] (fun n : Nat => n)).increment.finished = false ∨
      (Query.init [5] (fun n : Nat => n)).increment.fetch_stmt_ = none) :=
  query_done_retains_current [5] (fun n : Nat => n) (Query.init [5] (fun n : Nat => n))
    Query.Reachable.start

end RvnSqlite
